import Mathlib

/-!
Shallow embedding of the RevvAuto checkout component (src/src/App.tsx).

The component state is the six React state variables; the catalog is the
static list of services. Input handlers and the submit handler are
translated as pure functions on that state. JavaScript strings here hold
only BMP single-unit characters (digits, spaces, one slash), so String
indexing/slicing by characters coincides with UTF-16 slicing.
-/

/-- The JS regex class \s (whitespace), by code point, as used in
`value.replace(/\s/g, '')`. -/
def jsIsWhitespace (c : Char) : Bool :=
  c.toNat = 0x9 || c.toNat = 0xa || c.toNat = 0xb || c.toNat = 0xc ||
  c.toNat = 0xd || c.toNat = 0x20 || c.toNat = 0xa0 || c.toNat = 0x1680 ||
  (0x2000 ≤ c.toNat && c.toNat ≤ 0x200a) || c.toNat = 0x2028 ||
  c.toNat = 0x2029 || c.toNat = 0x202f || c.toNat = 0x205f ||
  c.toNat = 0x3000 || c.toNat = 0xfeff

/-- The JS regex class \d, i.e. exactly the ASCII digits 0-9. -/
def jsIsDigit (c : Char) : Bool :=
  0x30 ≤ c.toNat && c.toNat ≤ 0x39

/-- `value.replace(/\s/g, '')`: drop every whitespace character. -/
def jsReplaceWs (s : String) : String :=
  ⟨s.data.filter (fun c => !jsIsWhitespace c)⟩

/-- `value.replace(/\D/g, '')`: keep only the ASCII digits. -/
def jsDigitsOnly (s : String) : String :=
  ⟨s.data.filter jsIsDigit⟩

/-- `s.slice(0, n)` for the BMP strings this app manipulates. -/
def sTake (n : Nat) (s : String) : String :=
  ⟨s.data.take n⟩

/-- `s.slice(n)` for the BMP strings this app manipulates. -/
def sDrop (n : Nat) (s : String) : String :=
  ⟨s.data.drop n⟩

/-- A catalog entry (interface Service in App.tsx). Every dollar amount in
the component is an exact multiple of 0.01 and the handful of sums stays
far below the threshold where double-precision arithmetic and toFixed(2)
could drift from exact decimal arithmetic, so prices are embedded as exact
cent counts: the literal 1499.99 becomes 149999. -/
structure Service where
  id : String
  name : String
  description : String
  price : Nat
  mccCode : String
  merchantType : String
deriving DecidableEq, Repr

/-- The static catalog (const services in App.tsx); prices in cents. -/
def services : List Service :=
  [ { id := "1", name := "Body Paint", description := "Professional paint job",
      price := 149999, mccCode := "7531", merchantType := "Auto Body Repair Shops" },
    { id := "2", name := "Dent Removal", description := "Minor dent repair",
      price := 19999, mccCode := "7531", merchantType := "Auto Body Repair Shops" },
    { id := "3", name := "Premium Tires", description := "Set of 4 premium tires",
      price := 79999, mccCode := "5532", merchantType := "Automotive Tire Stores" },
    { id := "4", name := "Tire Rotation", description := "All four tires rotated and balanced",
      price := 3999, mccCode := "5532", merchantType := "Automotive Tire Stores" },
    { id := "5", name := "Oil Change", description := "Full synthetic oil change",
      price := 4999, mccCode := "7538", merchantType := "Auto Service Shops" },
    { id := "6", name := "Brake Repair", description := "Brake pads replacement",
      price := 29999, mccCode := "7538", merchantType := "Auto Service Shops" } ]

/-- The six React state variables of the component. -/
structure AppState where
  selectedServices : List String
  cardNumber : String
  cardName : String
  expiryDate : String
  cvv : String
  processing : Bool
deriving DecidableEq, Repr

/-- toggleService: remove the id if present (filter keeps every other id),
append it at the end otherwise. -/
def toggleService (prev : List String) (serviceId : String) : List String :=
  if prev.contains serviceId then
    prev.filter (fun id => id != serviceId)
  else
    prev ++ [serviceId]

/-- calculateTotal: filter the catalog by membership of the id in the
selection, then fold the prices starting from 0. Result in cents. -/
def calculateTotal (selectedServices : List String) : Nat :=
  (services.filter (fun service => selectedServices.contains service.id)).foldl
    (fun sum service => sum + service.price) 0

/-- The chunking done by cleaned.match(/.{1,4}/g) on a digits-only string:
split into groups of at most 4 characters, left to right. -/
def chunks4 : List Char → List (List Char)
  | [] => []
  | [a] => [[a]]
  | [a, b] => [[a, b]]
  | [a, b, c] => [[a, b, c]]
  | a :: b :: c :: d :: rest => [a, b, c, d] :: chunks4 rest

/-- Array.prototype.join(' '): concatenate the pieces with a single space
between consecutive pieces. -/
def joinSp : List (List Char) → List Char
  | [] => []
  | [x] => x
  | x :: y :: rest => x ++ ' ' :: joinSp (y :: rest)

/-- formatCardNumber: strip whitespace, join the 4-groups with single
spaces (match(/.{1,4}/g)?.join(' ') || cleaned, which yields the empty
string on empty input), and slice(0, 19). -/
def formatCardNumber (value : String) : String :=
  let cleaned := jsReplaceWs value
  let formatted : String := ⟨joinSp (chunks4 cleaned.data)⟩
  sTake 19 formatted

/-- handleCardNumberChange as a function from the raw input value and the
current field to the new field: strip whitespace, accept only when the
result matches /^\d*$/ and has at most 16 characters. -/
def handleCardNumberChange (input : String) (field : String) : String :=
  let value := jsReplaceWs input
  if value.data.all jsIsDigit && value.data.length ≤ 16 then
    formatCardNumber value
  else
    field

/-- handleExpiryChange: strip non-digits, reject more than 4 digits,
insert the slash after the second digit once 2 digits are present. -/
def handleExpiryChange (input : String) (field : String) : String :=
  let value := jsDigitsOnly input
  if value.data.length ≤ 4 then
    if 2 ≤ value.data.length then sTake 2 value ++ "/" ++ sDrop 2 value
    else value
  else
    field

/-- handleCvvChange: strip non-digits, reject more than 3 digits. -/
def handleCvvChange (input : String) (field : String) : String :=
  let value := jsDigitsOnly input
  if value.data.length ≤ 3 then value else field

/-- String.split('/') of JS, on the character list: always returns at
least one (possibly empty) piece. -/
def splitSlash : List Char → List (List Char)
  | [] => [[]]
  | c :: rest =>
    if c = '/' then [] :: splitSlash rest
    else
      match splitSlash rest with
      | [] => [[c]]
      | p :: ps => (c :: p) :: ps

/-- expiryDate.split('/') as a list of strings. -/
def splitSlashS (s : String) : List String :=
  (splitSlash s.data).map (fun l => ⟨l⟩)

/-- JS truthiness on an optional string (s || default): undefined and the
empty string both fall through to the default. -/
def jsOr (o : Option String) (d : String) : String :=
  match o with
  | some s => if s = "" then d else s
  | none => d

/-- Number.toFixed(2) on an amount given in exact cents. -/
def toFixed2 (cents : Nat) : String :=
  let frac : Nat := cents % 100
  toString (cents / 100) ++ "." ++ (if frac < 10 then "0" else "") ++ toString frac

/-- The JSON request body assembled by handleSubmit. expiryMonth and
expiryYear come from array destructuring of expiryDate.split('/'), so
each is undefined (none) when the split has too few pieces; JSON.stringify
omits undefined properties. -/
structure Payload where
  cardNumber : String
  cvv : String
  amount : Nat
  mccCode : String
  expiryMonth : Option String
  expiryYear : Option String
deriving DecidableEq, Repr

/-- JSON.stringify keeps a property only when its value is defined. -/
def Payload.serializesExpiryYear (p : Payload) : Bool :=
  p.expiryYear.isSome

/-- The payload construction inside the try block of handleSubmit. -/
def buildPayload (st : AppState) : Payload :=
  let parts := splitSlashS st.expiryDate
  { cardNumber := jsReplaceWs st.cardNumber
  , cvv := st.cvv
  , amount := calculateTotal st.selectedServices
  , mccCode :=
      jsOr ((services.find? (fun s => st.selectedServices.contains s.id)).map
        Service.mccCode) "7531"
  , expiryMonth := parts[0]?
  , expiryYear := parts[1]? }

/-- What the gateway interaction can come back with: a parsed JSON body
(whose status and responseMessage fields may each be absent), or a thrown
exception (fetch failure or response.json() failure); the thrown value
carries a message exactly when it is an Error instance. -/
inductive GatewayOutcome where
  | parsed (status : Option String) (responseMessage : Option String)
  | thrown (errorMessage : Option String)
deriving DecidableEq, Repr

/-- The last user-facing toast of a submission. -/
inductive Note where
  | error (msg : String)
  | success (msg : String)
deriving DecidableEq, Repr

/-- Everything observable about one run of handleSubmit: final component
state, whether fetch was reached, the body sent, the final toast. -/
structure SubmitResult where
  state : AppState
  networkCalled : Bool
  payload : Option Payload
  note : Note
deriving DecidableEq, Repr

/-- handleSubmit, with the awaited fetch/json step abstracted by the
GatewayOutcome argument. Guard 1 rejects an empty selection, guard 2 any
falsy (empty) payment field; both return before setProcessing(true). On a
response the status is compared to the sentinel; the finally clause makes
the final processing flag false on every path that reaches the network. -/
def handleSubmit (st : AppState) (outcome : GatewayOutcome) : SubmitResult :=
  if st.selectedServices.length = 0 then
    { state := st, networkCalled := false, payload := none,
      note := .error "Please select at least one service" }
  else if st.cardNumber = "" || st.cardName = "" || st.expiryDate = "" || st.cvv = "" then
    { state := st, networkCalled := false, payload := none,
      note := .error "Please fill in all card details" }
  else
    let payload := buildPayload st
    match outcome with
    | .parsed status responseMessage =>
      if status = some "APPROVED" then
        { state := { selectedServices := [], cardNumber := "", cardName := "",
                     expiryDate := "", cvv := "", processing := false },
          networkCalled := true, payload := some payload,
          note := .success ("Payment Approved!\n" ++
            jsOr responseMessage
              ("Amount: $" ++ toFixed2 (calculateTotal st.selectedServices))) }
      else
        { state := { st with processing := false },
          networkCalled := true, payload := some payload,
          note := .error ("Payment " ++ jsOr status "Failed" ++ "\n" ++
            jsOr responseMessage "Unknown error") }
    | .thrown errorMessage =>
        { state := { st with processing := false },
          networkCalled := true, payload := some payload,
          note := .error ("Payment error: " ++
            errorMessage.getD "Network error occurred") }

/-- Whether an outcome is the approved one: a parsed body whose status
field is exactly the sentinel string APPROVED. -/
def GatewayOutcome.approved : GatewayOutcome → Bool
  | .parsed status _ => status = some "APPROVED"
  | .thrown _ => false

/-- The error toast the submit handler shows for each non-approved
outcome: gateway status/message when available, fallbacks otherwise. -/
def failureNote : GatewayOutcome → Note
  | .parsed status responseMessage =>
      .error ("Payment " ++ jsOr status "Failed" ++ "\n" ++
        jsOr responseMessage "Unknown error")
  | .thrown errorMessage =>
      .error ("Payment error: " ++ errorMessage.getD "Network error occurred")

/-- The display form taken by an accepted card-number value: its 4-groups
joined by single spaces (no cap applied; the cap is vacuous for at most 16
digits). -/
def spacedGroups (digits : String) : String :=
  ⟨joinSp (chunks4 digits.data)⟩

/-! ### Helper lemmas -/

/-- An ASCII digit is not JS whitespace. -/
theorem digit_not_ws (c : Char) (h : jsIsDigit c = true) : jsIsWhitespace c = false := by
  simp only [jsIsDigit, Bool.and_eq_true, decide_eq_true_eq] at h
  simp only [jsIsWhitespace, Bool.or_eq_false_iff, Bool.and_eq_false_iff,
    decide_eq_false_iff_not]
  omega

/-- A slash is not an ASCII digit. -/
theorem slash_not_digit : jsIsDigit '/' = false := by decide

/-- Stripping whitespace from an all-digit character list is a no-op. -/
theorem filter_ws_of_digits (l : List Char) (h : l.all jsIsDigit = true) :
    l.filter (fun c => !jsIsWhitespace c) = l := by
  rw [List.filter_eq_self]
  intro c hc
  simp only [List.all_eq_true] at h
  simp [digit_not_ws c (h c hc)]

/-- Keeping only digits of an all-digit character list is a no-op. -/
theorem filter_digits_of_digits (l : List Char) (h : l.all jsIsDigit = true) :
    l.filter jsIsDigit = l := by
  rw [List.filter_eq_self]
  intro c hc
  simp only [List.all_eq_true] at h
  exact h c hc

/-- jsReplaceWs is idempotent. -/
theorem jsReplaceWs_idem (s : String) : jsReplaceWs (jsReplaceWs s) = jsReplaceWs s := by
  simp [jsReplaceWs, List.filter_filter]

/-- Concatenating the 4-groups gives back the original list. -/
theorem chunks4_join (l : List Char) : (chunks4 l).flatten = l := by
  induction l using chunks4.induct <;> simp [chunks4, List.flatten, *]

/-- Dropping whitespace from the space-joined groups drops exactly the
inserted separators. -/
theorem joinSp_filter_ws (L : List (List Char)) :
    (joinSp L).filter (fun c => !jsIsWhitespace c) =
      L.flatten.filter (fun c => !jsIsWhitespace c) := by
  induction L using joinSp.induct with
  | case1 => simp [joinSp]
  | case2 x => simp [joinSp]
  | case3 x y rest ih =>
    simp only [joinSp, List.flatten, List.filter_append, List.filter_cons]
    have : jsIsWhitespace ' ' = true := by decide
    simp [this, ih, List.filter_append]

/-- Exact display length of the space-joined 4-groups. -/
theorem joinSp_chunks4_length (l : List Char) (h : l ≠ []) :
    (joinSp (chunks4 l)).length = l.length + (l.length - 1) / 4 := by
  induction l using chunks4.induct with
  | case1 => simp at h
  | case2 a => simp [chunks4, joinSp]
  | case3 a b => simp [chunks4, joinSp]
  | case4 a b c => simp [chunks4, joinSp]
  | case5 a b c d rest ih =>
    by_cases hrest : rest = []
    · subst hrest; simp [chunks4, joinSp]
    · have hch : chunks4 rest ≠ [] := by
        cases rest with
        | nil => simp at hrest
        | cons e es =>
          cases es with
          | nil => simp [chunks4]
          | cons f fs =>
            cases fs with
            | nil => simp [chunks4]
            | cons g gs =>
              cases gs with
              | nil => simp [chunks4]
              | cons i is => simp [chunks4]
      have hlen : 1 ≤ rest.length := by
        cases rest with
        | nil => simp at hrest
        | cons e es => simp
      obtain ⟨p, ps, hps⟩ : ∃ p ps, chunks4 rest = p :: ps := by
        cases hcc : chunks4 rest with
        | nil => exact absurd hcc hch
        | cons p ps => exact ⟨p, ps, rfl⟩
      have ihr := ih hrest
      rw [hps] at ihr
      simp only [chunks4, hps, joinSp, List.length_cons, List.length_append,
        List.length_nil]
      rw [ihr]
      omega

/-- Splitting a slash-free character list yields exactly one piece. -/
theorem splitSlash_no_slash (l : List Char) (h : '/' ∉ l) : splitSlash l = [l] := by
  induction l with
  | nil => rfl
  | cons c rest ih =>
    have hc : c ≠ '/' := fun hc => h (hc ▸ List.mem_cons_self c rest)
    have hr : '/' ∉ rest := fun hr => h (List.mem_cons_of_mem c hr)
    simp [splitSlash, hc, ih hr]

/-- Splitting text shaped month-slash-year with slash-free halves yields
exactly those two pieces. -/
theorem splitSlash_sep (m y : List Char) (hm : '/' ∉ m) (hy : '/' ∉ y) :
    splitSlash (m ++ '/' :: y) = [m, y] := by
  induction m with
  | nil => simp [splitSlash, splitSlash_no_slash y hy]
  | cons c rest ih =>
    have hc : c ≠ '/' := fun hc => hm (hc ▸ List.mem_cons_self c rest)
    have hr : '/' ∉ rest := fun hr => hm (List.mem_cons_of_mem c hr)
    simp [splitSlash, hc, ih hr]

/-- The price fold of calculateTotal is a sum, for any accumulator. -/
theorem foldl_price (L : List Service) (a : Nat) :
    L.foldl (fun sum service => sum + service.price) a =
      a + (L.map Service.price).sum := by
  induction L generalizing a with
  | nil => simp
  | cons s L ih => simp [List.foldl_cons, ih, Nat.add_assoc]

/-- calculateTotal is the sum of the prices of the selected entries. -/
theorem calculateTotal_eq_sum (sel : List String) :
    calculateTotal sel =
      ((services.filter (fun service => sel.contains service.id)).map
        Service.price).sum := by
  simp [calculateTotal, foldl_price]

/-- Every catalog entry carries a non-empty mcc code. -/
theorem services_mcc_ne_empty : ∀ s ∈ services, s.mccCode ≠ "" := by decide

/-- When both guards pass, handleSubmit reaches the network on every
outcome and sends exactly the payload built from the state. -/
theorem handleSubmit_payload (st : AppState) (o : GatewayOutcome)
    (hsel : st.selectedServices ≠ []) (hcn : st.cardNumber ≠ "")
    (hna : st.cardName ≠ "") (hex : st.expiryDate ≠ "") (hcv : st.cvv ≠ "") :
    (handleSubmit st o).payload = some (buildPayload st) ∧
      (handleSubmit st o).networkCalled = true := by
  have hlen : ¬st.selectedServices.length = 0 := by
    simpa [List.length_eq_zero] using hsel
  cases o with
  | parsed status responseMessage =>
    by_cases hap : status = some "APPROVED" <;>
      simp [handleSubmit, hlen, hcn, hna, hex, hcv, hap]
  | thrown errorMessage =>
    simp [handleSubmit, hlen, hcn, hna, hex, hcv]

/-- On an all-digit value of at most 16 digits the slice(0,19) cap in
formatCardNumber is vacuous: the formatter returns the space-joined
groups. -/
theorem formatCardNumber_digits (v : String) (hall : v.data.all jsIsDigit = true)
    (hlen : v.data.length ≤ 16) : formatCardNumber v = spacedGroups v := by
  unfold formatCardNumber spacedGroups sTake
  have hclean : jsReplaceWs v = v := by
    unfold jsReplaceWs
    rw [filter_ws_of_digits v.data hall]
  rw [hclean]
  show String.mk ((joinSp (chunks4 v.data)).take 19) = String.mk (joinSp (chunks4 v.data))
  congr 1
  apply List.take_of_length_le
  by_cases hnil : v.data = []
  · simp [hnil, chunks4, joinSp]
  · rw [joinSp_chunks4_length v.data hnil]
    omega

/-- The display length of the space-joined groups of at most 16 digits is
at most 19. -/
theorem spacedGroups_length (v : String) (hlen : v.data.length ≤ 16) :
    (spacedGroups v).data.length ≤ 19 := by
  unfold spacedGroups
  by_cases hnil : v.data = []
  · simp [hnil, chunks4, joinSp]
  · show (joinSp (chunks4 v.data)).length ≤ 19
    rw [joinSp_chunks4_length v.data hnil]
    omega

/-- Stripping the whitespace of the space-joined groups recovers exactly
the original digits. -/
theorem jsReplaceWs_spacedGroups (v : String) (hall : v.data.all jsIsDigit = true) :
    jsReplaceWs (spacedGroups v) = v := by
  unfold jsReplaceWs spacedGroups
  show String.mk ((joinSp (chunks4 v.data)).filter (fun c => !jsIsWhitespace c)) = v
  rw [joinSp_filter_ws, chunks4_join, filter_ws_of_digits v.data hall]

/-! ### Claim theorems -/

/-- C5: for every selection state, calculateTotal equals the sum of the
price fields of the catalog services whose id is in the selection, and the
total of the empty selection is 0. -/
theorem c5_total_is_sum_of_selected_prices :
    (∀ sel : List String,
      calculateTotal sel =
        ((services.filter (fun service => sel.contains service.id)).map
          Service.price).sum) ∧
    calculateTotal [] = 0 :=
  ⟨calculateTotal_eq_sum, by decide⟩

/-- C6 counterexample: toggling id 1 twice on the selection list
containing ids 1 and 2 does not return the state to its prior value — the
toggled id moves to the end of the list. -/
theorem c6_counterexample :
    toggleService (toggleService ["1", "2"] "1") "1" ≠ ["1", "2"] := by decide

/-- C6 (amended): toggling the same id twice yields a selection with
exactly the same members as before (so every membership-based observation,
including the total and the payload, is restored), and when the id was not
previously selected the stored list itself is exactly restored; when it
was already selected, the id reappears at the end of the list. -/
theorem c6_toggle_twice_membership (sel : List String) (x : String) :
    (∀ y, y ∈ toggleService (toggleService sel x) x ↔ y ∈ sel) ∧
    (x ∉ sel → toggleService (toggleService sel x) x = sel) := by
  by_cases hmem : x ∈ sel
  · have h1 : toggleService sel x = sel.filter (fun id => id != x) := by
      simp [toggleService, hmem]
    have hx1 : x ∉ sel.filter (fun id => id != x) := by
      simp [List.mem_filter]
    have h2 : toggleService (toggleService sel x) x =
        sel.filter (fun id => id != x) ++ [x] := by
      rw [h1]
      simp [toggleService, hx1]
    constructor
    · intro y
      rw [h2]
      simp only [List.mem_append, List.mem_filter, List.mem_singleton, bne_iff_ne,
        ne_eq]
      constructor
      · rintro (⟨hy, -⟩ | rfl)
        · exact hy
        · exact hmem
      · intro hy
        by_cases hyx : y = x
        · exact Or.inr hyx
        · exact Or.inl ⟨hy, hyx⟩
    · intro hx
      exact absurd hmem hx
  · have h1 : toggleService sel x = sel ++ [x] := by
      simp [toggleService, hmem]
    have hx1 : x ∈ sel ++ [x] := by simp
    have hfl : (sel ++ [x]).filter (fun id => id != x) = sel := by
      rw [List.filter_append]
      have : sel.filter (fun id => id != x) = sel := by
        rw [List.filter_eq_self]
        intro y hy
        simp only [bne_iff_ne, ne_eq]
        intro h
        exact hmem (h ▸ hy)
      simp [this]
    have h2 : toggleService (toggleService sel x) x = sel := by
      rw [h1]
      simp [toggleService, hx1, hfl]
    exact ⟨fun y => by rw [h2], fun _ => h2⟩

/-- C6 witness: toggling id 1 twice on the singleton selection of id 2
restores the list exactly. -/
theorem c6_witness : toggleService (toggleService ["2"] "1") "1" = ["2"] :=
  (c6_toggle_twice_membership ["2"] "1").2 (by decide)

/-- C4: a submission with an empty selection or any empty payment field
leaves the whole state unchanged, issues no network call, and surfaces one
of the two validation-error toasts. -/
theorem c4_validation_guards (st : AppState) (o : GatewayOutcome)
    (h : st.selectedServices = [] ∨ st.cardNumber = "" ∨ st.cardName = "" ∨
      st.expiryDate = "" ∨ st.cvv = "") :
    (handleSubmit st o).state = st ∧
    (handleSubmit st o).networkCalled = false ∧
    (handleSubmit st o).payload = none ∧
    ((handleSubmit st o).note = .error "Please select at least one service" ∨
     (handleSubmit st o).note = .error "Please fill in all card details") := by
  by_cases hsel : st.selectedServices.length = 0
  · simp [handleSubmit, hsel]
  · have hne : ¬st.selectedServices = [] := by
      intro he
      exact hsel (by simp [he])
    have hfields : st.cardNumber = "" ∨ st.cardName = "" ∨ st.expiryDate = "" ∨
        st.cvv = "" := by
      tauto
    rcases hfields with hf | hf | hf | hf <;> simp [handleSubmit, hsel, hf]

/-- C4 witness: the empty-selection state with filled fields is rejected
with the selection-error toast and no network call. -/
theorem c4_witness :
    (handleSubmit
      { selectedServices := [], cardNumber := "4111 1111 1111 1111",
        cardName := "John Doe", expiryDate := "12/25", cvv := "123",
        processing := false } (.parsed (some "APPROVED") none)).state =
      { selectedServices := [], cardNumber := "4111 1111 1111 1111",
        cardName := "John Doe", expiryDate := "12/25", cvv := "123",
        processing := false } ∧
    (handleSubmit
      { selectedServices := [], cardNumber := "4111 1111 1111 1111",
        cardName := "John Doe", expiryDate := "12/25", cvv := "123",
        processing := false } (.parsed (some "APPROVED") none)).networkCalled = false ∧
    (handleSubmit
      { selectedServices := [], cardNumber := "4111 1111 1111 1111",
        cardName := "John Doe", expiryDate := "12/25", cvv := "123",
        processing := false } (.parsed (some "APPROVED") none)).payload = none ∧
    ((handleSubmit
      { selectedServices := [], cardNumber := "4111 1111 1111 1111",
        cardName := "John Doe", expiryDate := "12/25", cvv := "123",
        processing := false } (.parsed (some "APPROVED") none)).note =
        .error "Please select at least one service" ∨
     (handleSubmit
      { selectedServices := [], cardNumber := "4111 1111 1111 1111",
        cardName := "John Doe", expiryDate := "12/25", cvv := "123",
        processing := false } (.parsed (some "APPROVED") none)).note =
        .error "Please fill in all card details") :=
  c4_validation_guards _ _ (Or.inl rfl)

/-- C2: when both guards pass and the gateway body parses with status
APPROVED, the submission ends with a success toast carrying the gateway
message (or the amount-charged fallback), an empty selection, all four
payment fields empty, and the processing flag cleared. -/
theorem c2_approved_clears_state (st : AppState) (msg : Option String)
    (hsel : st.selectedServices ≠ []) (hcn : st.cardNumber ≠ "")
    (hna : st.cardName ≠ "") (hex : st.expiryDate ≠ "") (hcv : st.cvv ≠ "") :
    (handleSubmit st (.parsed (some "APPROVED") msg)).state.selectedServices = [] ∧
    (handleSubmit st (.parsed (some "APPROVED") msg)).state.cardNumber = "" ∧
    (handleSubmit st (.parsed (some "APPROVED") msg)).state.cardName = "" ∧
    (handleSubmit st (.parsed (some "APPROVED") msg)).state.expiryDate = "" ∧
    (handleSubmit st (.parsed (some "APPROVED") msg)).state.cvv = "" ∧
    (handleSubmit st (.parsed (some "APPROVED") msg)).state.processing = false ∧
    (handleSubmit st (.parsed (some "APPROVED") msg)).note =
      .success ("Payment Approved!\n" ++
        jsOr msg ("Amount: $" ++ toFixed2 (calculateTotal st.selectedServices))) := by
  have hlen : ¬st.selectedServices.length = 0 := by
    simpa [List.length_eq_zero] using hsel
  simp [handleSubmit, hlen, hcn, hna, hex, hcv]

/-- C2 witness: a full submission answered APPROVED with message OK clears
everything and shows the success toast containing OK. -/
theorem c2_witness :
    (handleSubmit
      { selectedServices := ["1", "5"], cardNumber := "4111 1111 1111 1111",
        cardName := "John Doe", expiryDate := "12/25", cvv := "123",
        processing := true } (.parsed (some "APPROVED") (some "OK"))).state.selectedServices = [] ∧
    (handleSubmit
      { selectedServices := ["1", "5"], cardNumber := "4111 1111 1111 1111",
        cardName := "John Doe", expiryDate := "12/25", cvv := "123",
        processing := true } (.parsed (some "APPROVED") (some "OK"))).state.cardNumber = "" ∧
    (handleSubmit
      { selectedServices := ["1", "5"], cardNumber := "4111 1111 1111 1111",
        cardName := "John Doe", expiryDate := "12/25", cvv := "123",
        processing := true } (.parsed (some "APPROVED") (some "OK"))).state.cardName = "" ∧
    (handleSubmit
      { selectedServices := ["1", "5"], cardNumber := "4111 1111 1111 1111",
        cardName := "John Doe", expiryDate := "12/25", cvv := "123",
        processing := true } (.parsed (some "APPROVED") (some "OK"))).state.expiryDate = "" ∧
    (handleSubmit
      { selectedServices := ["1", "5"], cardNumber := "4111 1111 1111 1111",
        cardName := "John Doe", expiryDate := "12/25", cvv := "123",
        processing := true } (.parsed (some "APPROVED") (some "OK"))).state.cvv = "" ∧
    (handleSubmit
      { selectedServices := ["1", "5"], cardNumber := "4111 1111 1111 1111",
        cardName := "John Doe", expiryDate := "12/25", cvv := "123",
        processing := true } (.parsed (some "APPROVED") (some "OK"))).state.processing = false ∧
    (handleSubmit
      { selectedServices := ["1", "5"], cardNumber := "4111 1111 1111 1111",
        cardName := "John Doe", expiryDate := "12/25", cvv := "123",
        processing := true } (.parsed (some "APPROVED") (some "OK"))).note =
      .success ("Payment Approved!\n" ++
        jsOr (some "OK") ("Amount: $" ++ toFixed2 (calculateTotal ["1", "5"]))) :=
  c2_approved_clears_state _ _ (by decide) (by decide) (by decide) (by decide)
    (by decide)

/-- C3: when both guards pass and the outcome is anything but an APPROVED
parsed body — another status, an absent status, or a thrown
network/parse exception — the submission keeps the selection and all four
payment fields unchanged, clears the processing flag, and shows the error
toast built from the gateway status/message or the generic fallbacks. -/
theorem c3_failure_keeps_state (st : AppState) (o : GatewayOutcome)
    (hsel : st.selectedServices ≠ []) (hcn : st.cardNumber ≠ "")
    (hna : st.cardName ≠ "") (hex : st.expiryDate ≠ "") (hcv : st.cvv ≠ "")
    (hap : o.approved = false) :
    (handleSubmit st o).state.selectedServices = st.selectedServices ∧
    (handleSubmit st o).state.cardNumber = st.cardNumber ∧
    (handleSubmit st o).state.cardName = st.cardName ∧
    (handleSubmit st o).state.expiryDate = st.expiryDate ∧
    (handleSubmit st o).state.cvv = st.cvv ∧
    (handleSubmit st o).state.processing = false ∧
    (handleSubmit st o).note = failureNote o ∧
    (∃ m, (handleSubmit st o).note = Note.error m) := by
  have hlen : ¬st.selectedServices.length = 0 := by
    simpa [List.length_eq_zero] using hsel
  cases o with
  | parsed status responseMessage =>
    have hst : ¬status = some "APPROVED" := by
      simpa [GatewayOutcome.approved] using hap
    simp [handleSubmit, hlen, hcn, hna, hex, hcv, hst, failureNote]
  | thrown errorMessage =>
    simp [handleSubmit, hlen, hcn, hna, hex, hcv, failureNote]

/-- C3 witness: a DECLINED response with message Insufficient funds leaves
the state intact apart from the processing flag and shows the error toast
containing the message. -/
theorem c3_witness :
    (handleSubmit
      { selectedServices := ["2"], cardNumber := "4111 1111 1111 1111",
        cardName := "John Doe", expiryDate := "12/25", cvv := "123",
        processing := true }
      (.parsed (some "DECLINED") (some "Insufficient funds"))).state.selectedServices = ["2"] ∧
    (handleSubmit
      { selectedServices := ["2"], cardNumber := "4111 1111 1111 1111",
        cardName := "John Doe", expiryDate := "12/25", cvv := "123",
        processing := true }
      (.parsed (some "DECLINED") (some "Insufficient funds"))).state.cardNumber =
        "4111 1111 1111 1111" ∧
    (handleSubmit
      { selectedServices := ["2"], cardNumber := "4111 1111 1111 1111",
        cardName := "John Doe", expiryDate := "12/25", cvv := "123",
        processing := true }
      (.parsed (some "DECLINED") (some "Insufficient funds"))).state.cardName = "John Doe" ∧
    (handleSubmit
      { selectedServices := ["2"], cardNumber := "4111 1111 1111 1111",
        cardName := "John Doe", expiryDate := "12/25", cvv := "123",
        processing := true }
      (.parsed (some "DECLINED") (some "Insufficient funds"))).state.expiryDate = "12/25" ∧
    (handleSubmit
      { selectedServices := ["2"], cardNumber := "4111 1111 1111 1111",
        cardName := "John Doe", expiryDate := "12/25", cvv := "123",
        processing := true }
      (.parsed (some "DECLINED") (some "Insufficient funds"))).state.cvv = "123" ∧
    (handleSubmit
      { selectedServices := ["2"], cardNumber := "4111 1111 1111 1111",
        cardName := "John Doe", expiryDate := "12/25", cvv := "123",
        processing := true }
      (.parsed (some "DECLINED") (some "Insufficient funds"))).state.processing = false ∧
    (handleSubmit
      { selectedServices := ["2"], cardNumber := "4111 1111 1111 1111",
        cardName := "John Doe", expiryDate := "12/25", cvv := "123",
        processing := true }
      (.parsed (some "DECLINED") (some "Insufficient funds"))).note =
      failureNote (.parsed (some "DECLINED") (some "Insufficient funds")) ∧
    (∃ m, (handleSubmit
      { selectedServices := ["2"], cardNumber := "4111 1111 1111 1111",
        cardName := "John Doe", expiryDate := "12/25", cvv := "123",
        processing := true }
      (.parsed (some "DECLINED") (some "Insufficient funds"))).note = Note.error m) :=
  c3_failure_keeps_state _ _ (by decide) (by decide) (by decide) (by decide)
    (by decide) (by decide)

/-- C1: when both guards pass, the request body contains exactly the
whitespace-stripped card number, the CVV as typed, the sum of the prices
of the selected services, the mcc code of the first catalog entry (in
catalog order) whose id is selected, and the month/year halves of the
expiry field split at the slash. -/
theorem c1_payload_contents (st : AppState) (o : GatewayOutcome) (svc : Service)
    (m y : List Char)
    (hsel : st.selectedServices ≠ []) (hcn : st.cardNumber ≠ "")
    (hna : st.cardName ≠ "") (hex : st.expiryDate ≠ "") (hcv : st.cvv ≠ "")
    (hfind : services.find? (fun s => st.selectedServices.contains s.id) = some svc)
    (hsplit : st.expiryDate.data = m ++ '/' :: y)
    (hm : '/' ∉ m) (hy : '/' ∉ y) :
    (handleSubmit st o).payload = some
      { cardNumber := jsReplaceWs st.cardNumber
      , cvv := st.cvv
      , amount := ((services.filter
          (fun s => st.selectedServices.contains s.id)).map Service.price).sum
      , mccCode := svc.mccCode
      , expiryMonth := some ⟨m⟩
      , expiryYear := some ⟨y⟩ } := by
  obtain ⟨hp, -⟩ := handleSubmit_payload st o hsel hcn hna hex hcv
  rw [hp]
  have hmcc : svc.mccCode ≠ "" :=
    services_mcc_ne_empty svc (List.mem_of_find?_eq_some hfind)
  unfold buildPayload splitSlashS
  rw [hsplit, splitSlash_sep m y hm hy, hfind]
  simp [jsOr, hmcc, calculateTotal_eq_sum]

/-- C1 witness: selecting Oil Change with formatted card, name, expiry
12/25 and CVV 123 sends exactly the cleaned digits, the CVV, 49.99 (in
cents), mcc 7538 and the split expiry halves. -/
theorem c1_witness :
    (handleSubmit
      { selectedServices := ["5"], cardNumber := "4111 1111 1111 1111",
        cardName := "John Doe", expiryDate := "12/25", cvv := "123",
        processing := false } (.parsed (some "APPROVED") none)).payload = some
      { cardNumber := "4111111111111111", cvv := "123", amount := 4999,
        mccCode := "7538", expiryMonth := some "12", expiryYear := some "25" } := by
  have h := c1_payload_contents
    { selectedServices := ["5"], cardNumber := "4111 1111 1111 1111",
      cardName := "John Doe", expiryDate := "12/25", cvv := "123",
      processing := false }
    (.parsed (some "APPROVED") none)
    { id := "5", name := "Oil Change", description := "Full synthetic oil change",
      price := 4999, mccCode := "7538", merchantType := "Auto Service Shops" }
    ['1', '2'] ['2', '5']
    (by decide) (by decide) (by decide) (by decide) (by decide)
    (by decide) (by decide) (by decide) (by decide)
  exact h.trans (by decide)

/-- C10: when both guards pass but the expiry field contains no slash, the
split yields a single piece, so the payload's expiryMonth is the whole
expiry string, its expiryYear is undefined, and the serialized JSON body
omits the expiryYear property entirely. -/
theorem c10_missing_slash_omits_expiry_year (st : AppState) (o : GatewayOutcome)
    (hsel : st.selectedServices ≠ []) (hcn : st.cardNumber ≠ "")
    (hna : st.cardName ≠ "") (hex : st.expiryDate ≠ "") (hcv : st.cvv ≠ "")
    (hns : '/' ∉ st.expiryDate.data) :
    (handleSubmit st o).payload = some (buildPayload st) ∧
    (buildPayload st).expiryMonth = some st.expiryDate ∧
    (buildPayload st).expiryYear = none ∧
    (buildPayload st).serializesExpiryYear = false := by
  obtain ⟨hp, -⟩ := handleSubmit_payload st o hsel hcn hna hex hcv
  refine ⟨hp, ?_, ?_, ?_⟩ <;>
    simp [buildPayload, splitSlashS, Payload.serializesExpiryYear,
      splitSlash_no_slash st.expiryDate.data hns]

/-- C10 witness: a single-digit expiry 1 passes the guard and produces a
payload whose expiryMonth is "1" and whose expiryYear is undefined, hence
dropped by JSON.stringify. -/
theorem c10_witness :
    (handleSubmit
      { selectedServices := ["5"], cardNumber := "4111 1111 1111 1111",
        cardName := "John Doe", expiryDate := "1", cvv := "123",
        processing := false } (.parsed (some "DECLINED") none)).payload =
      some (buildPayload
        { selectedServices := ["5"], cardNumber := "4111 1111 1111 1111",
          cardName := "John Doe", expiryDate := "1", cvv := "123",
          processing := false }) ∧
    (buildPayload
      { selectedServices := ["5"], cardNumber := "4111 1111 1111 1111",
        cardName := "John Doe", expiryDate := "1", cvv := "123",
        processing := false }).expiryMonth = some "1" ∧
    (buildPayload
      { selectedServices := ["5"], cardNumber := "4111 1111 1111 1111",
        cardName := "John Doe", expiryDate := "1", cvv := "123",
        processing := false }).expiryYear = none ∧
    (buildPayload
      { selectedServices := ["5"], cardNumber := "4111 1111 1111 1111",
        cardName := "John Doe", expiryDate := "1", cvv := "123",
        processing := false }).serializesExpiryYear = false :=
  c10_missing_slash_omits_expiry_year _ _ (by decide) (by decide) (by decide)
    (by decide) (by decide) (by decide)

/-- Everything jsDigitsOnly returns is made of digits. -/
theorem jsDigitsOnly_all (s : String) : (jsDigitsOnly s).data.all jsIsDigit = true := by
  unfold jsDigitsOnly
  simp only [List.all_eq_true]
  intro c hc
  exact (List.mem_filter.mp hc).2

/-- jsDigitsOnly is the identity on all-digit strings. -/
theorem jsDigitsOnly_of_all (s : String) (h : s.data.all jsIsDigit = true) :
    jsDigitsOnly s = s := by
  unfold jsDigitsOnly
  rw [filter_digits_of_digits s.data h]

/-- Stripping the non-digits of a formatted expiry (two-part slash form
over an all-digit value) recovers exactly that value. -/
theorem jsDigitsOnly_expiry_shape (v : String) (hall : v.data.all jsIsDigit = true) :
    jsDigitsOnly (sTake 2 v ++ "/" ++ sDrop 2 v) = v := by
  have hmem := List.all_eq_true.mp hall
  have h1 : (sTake 2 v ++ "/" ++ sDrop 2 v).data =
      v.data.take 2 ++ ('/' :: v.data.drop 2) := by
    rw [String.data_append, String.data_append]
    simp [sTake, sDrop]
  unfold jsDigitsOnly
  rw [h1, List.filter_append, List.filter_cons]
  have ht : (v.data.take 2).filter jsIsDigit = v.data.take 2 :=
    filter_digits_of_digits _ (List.all_eq_true.mpr
      (fun c hc => hmem c (List.take_subset 2 v.data hc)))
  have hd : (v.data.drop 2).filter jsIsDigit = v.data.drop 2 :=
    filter_digits_of_digits _ (List.all_eq_true.mpr
      (fun c hc => hmem c (List.drop_subset 2 v.data hc)))
  simp [slash_not_digit, ht, hd]

/-- C7: a card-number keystroke whose whitespace-stripped value has a
non-digit or more than 16 characters is rejected with the field unchanged;
an accepted value is stored as its 4-groups joined by single spaces, at
most 19 display characters, and stripping the spaces recovers exactly the
cleaned digits. -/
theorem c7_card_number_formatter (input field : String) :
    (¬((jsReplaceWs input).data.all jsIsDigit = true ∧
        (jsReplaceWs input).data.length ≤ 16) →
      handleCardNumberChange input field = field) ∧
    (((jsReplaceWs input).data.all jsIsDigit = true ∧
        (jsReplaceWs input).data.length ≤ 16) →
      handleCardNumberChange input field = spacedGroups (jsReplaceWs input) ∧
      (handleCardNumberChange input field).data.length ≤ 19 ∧
      jsReplaceWs (handleCardNumberChange input field) = jsReplaceWs input) := by
  constructor
  · intro h
    have hcond : ¬((jsReplaceWs input).data.all jsIsDigit = true ∧
        (jsReplaceWs input).data.length ≤ 16) := h
    simp only [handleCardNumberChange]
    rw [if_neg]
    simpa [Bool.and_eq_true, decide_eq_true_eq] using hcond
  · rintro ⟨hall, hlen⟩
    have hlen2 : (jsReplaceWs input).length ≤ 16 := hlen
    have hres : handleCardNumberChange input field =
        spacedGroups (jsReplaceWs input) := by
      simp [handleCardNumberChange, hall, hlen, hlen2,
        formatCardNumber_digits (jsReplaceWs input) hall hlen]
    refine ⟨hres, ?_, ?_⟩
    · rw [hres]
      exact spacedGroups_length _ hlen
    · rw [hres]
      exact jsReplaceWs_spacedGroups _ hall

/-- C7 witness: sixteen plain digits are grouped into the familiar spaced
display form, and a value containing a letter is rejected unchanged. -/
theorem c7_witness :
    handleCardNumberChange "4111111111111111" "prev" = "4111 1111 1111 1111" ∧
    handleCardNumberChange "41a1" "prev" = "prev" := by
  constructor
  · exact (((c7_card_number_formatter "4111111111111111" "prev").2
      (by decide)).1).trans (by decide)
  · exact (c7_card_number_formatter "41a1" "prev").1 (by decide)

/-- C8: an expiry keystroke whose digit-stripped value exceeds 4 digits is
rejected with the field unchanged; with 2 to 4 digits a single slash is
inserted after the second digit; with fewer than 2 digits the bare digits
are stored. -/
theorem c8_expiry_formatter (input field : String) :
    (4 < (jsDigitsOnly input).data.length → handleExpiryChange input field = field) ∧
    ((jsDigitsOnly input).data.length ≤ 4 →
      (2 ≤ (jsDigitsOnly input).data.length →
        handleExpiryChange input field =
          sTake 2 (jsDigitsOnly input) ++ "/" ++ sDrop 2 (jsDigitsOnly input)) ∧
      ((jsDigitsOnly input).data.length < 2 →
        handleExpiryChange input field = jsDigitsOnly input)) := by
  refine ⟨fun h => ?_, fun h4 => ⟨fun h2 => ?_, fun h2 => ?_⟩⟩
  · have h4s : ¬(jsDigitsOnly input).length ≤ 4 := by
      show ¬(jsDigitsOnly input).data.length ≤ 4
      omega
    simp [handleExpiryChange, h4s]
  · have h4s : (jsDigitsOnly input).length ≤ 4 := h4
    have h2s : 2 ≤ (jsDigitsOnly input).length := h2
    simp [handleExpiryChange, h4s, h2s]
  · have h4s : (jsDigitsOnly input).length ≤ 4 := h4
    have h2s : ¬2 ≤ (jsDigitsOnly input).length := by
      show ¬2 ≤ (jsDigitsOnly input).data.length
      omega
    simp [handleExpiryChange, h4s, h2s]

/-- C8 witness: digits 1225 become 12/25, a single digit stays bare, and a
fifth digit is rejected unchanged. -/
theorem c8_witness :
    handleExpiryChange "1225" "prev" = "12/25" ∧
    handleExpiryChange "1" "prev" = "1" ∧
    handleExpiryChange "12345" "prev" = "prev" := by
  refine ⟨?_, ?_, ?_⟩
  · exact (((c8_expiry_formatter "1225" "prev").2 (by decide)).1
      (by decide)).trans (by decide)
  · exact (((c8_expiry_formatter "1" "prev").2 (by decide)).2
      (by decide)).trans (by decide)
  · exact (c8_expiry_formatter "12345" "prev").1 (by decide)

/-- C9: each formatter is idempotent on its own accepted output — feeding
a stored card number, expiry, or CVV back through its handler (with any
prior field value) returns it unchanged — and each maps the empty input to
the empty field without failing. -/
theorem c9_formatters_idempotent :
    (∀ input field t, (jsReplaceWs input).data.all jsIsDigit = true →
      (jsReplaceWs input).data.length ≤ 16 →
      handleCardNumberChange input field = t →
      ∀ field2, handleCardNumberChange t field2 = t) ∧
    (∀ input field t, (jsDigitsOnly input).data.length ≤ 4 →
      handleExpiryChange input field = t →
      ∀ field2, handleExpiryChange t field2 = t) ∧
    (∀ input field t, (jsDigitsOnly input).data.length ≤ 3 →
      handleCvvChange input field = t →
      ∀ field2, handleCvvChange t field2 = t) ∧
    (∀ field, handleCardNumberChange "" field = "") ∧
    (∀ field, handleExpiryChange "" field = "") ∧
    (∀ field, handleCvvChange "" field = "") := by
  refine ⟨?_, ?_, ?_, fun field => rfl, fun field => rfl, fun field => rfl⟩
  · intro input field t hall hlen heq field2
    have hlen2 : (jsReplaceWs input).length ≤ 16 := hlen
    have hres : handleCardNumberChange input field =
        spacedGroups (jsReplaceWs input) := by
      simp [handleCardNumberChange, hall, hlen, hlen2,
        formatCardNumber_digits (jsReplaceWs input) hall hlen]
    rw [hres] at heq
    subst heq
    have hws : jsReplaceWs (spacedGroups (jsReplaceWs input)) = jsReplaceWs input :=
      jsReplaceWs_spacedGroups _ hall
    simp [handleCardNumberChange, hws, hall, hlen, hlen2,
      formatCardNumber_digits (jsReplaceWs input) hall hlen]
  · intro input field t h4 heq field2
    have h4s : (jsDigitsOnly input).length ≤ 4 := h4
    have hall : (jsDigitsOnly input).data.all jsIsDigit = true := jsDigitsOnly_all input
    by_cases h2 : 2 ≤ (jsDigitsOnly input).data.length
    · have h2s : 2 ≤ (jsDigitsOnly input).length := h2
      have hres : handleExpiryChange input field =
          sTake 2 (jsDigitsOnly input) ++ "/" ++ sDrop 2 (jsDigitsOnly input) := by
        simp [handleExpiryChange, h4s, h2s]
      rw [hres] at heq
      subst heq
      have hstrip := jsDigitsOnly_expiry_shape (jsDigitsOnly input) hall
      simp [handleExpiryChange, hstrip, h4s, h2s]
    · have h2s : ¬2 ≤ (jsDigitsOnly input).length := h2
      have hres : handleExpiryChange input field = jsDigitsOnly input := by
        simp [handleExpiryChange, h4s, h2s]
      rw [hres] at heq
      subst heq
      have hstrip : jsDigitsOnly (jsDigitsOnly input) = jsDigitsOnly input :=
        jsDigitsOnly_of_all _ hall
      simp [handleExpiryChange, hstrip, h4s, h2s]
  · intro input field t h3 heq field2
    have h3s : (jsDigitsOnly input).length ≤ 3 := h3
    have hres : handleCvvChange input field = jsDigitsOnly input := by
      simp [handleCvvChange, h3s]
    rw [hres] at heq
    subst heq
    have hstrip : jsDigitsOnly (jsDigitsOnly input) = jsDigitsOnly input :=
      jsDigitsOnly_of_all _ (jsDigitsOnly_all input)
    simp [handleCvvChange, hstrip, h3s]

/-- C9 witness: re-running the already formatted card number, expiry, and
CVV through their handlers leaves each unchanged. -/
theorem c9_witness :
    handleCardNumberChange "4111 1111 1111 1111" "prev" = "4111 1111 1111 1111" ∧
    handleExpiryChange "12/25" "prev" = "12/25" ∧
    handleCvvChange "123" "prev" = "123" :=
  ⟨c9_formatters_idempotent.1 "4111111111111111" "old" "4111 1111 1111 1111"
      (by decide) (by decide) (by decide) "prev",
    c9_formatters_idempotent.2.1 "1225" "old" "12/25" (by decide) (by decide) "prev",
    c9_formatters_idempotent.2.2.1 "123" "old" "123" (by decide) (by decide) "prev"⟩
